import Mathlib

/-!
Shallow embedding of the Halloween community-event app (Express server in
server.js / src/unnamed/part_000, admin client in public/js/rules.js).

Modelling conventions:
* JavaScript numbers on addresses (lat, lon) are modelled as exact rationals;
  NaN is not modelled.  A possibly-absent field is an Option.
* JavaScript truthiness: a string field is truthy when present and nonempty;
  a number field is truthy when present and nonzero.
* The external geocoder (fetch to nominatim) is modelled as a response
  oracle, a function from the index of the fetch call to a GeoResponse:
  either a thrown network/parse error, or a list of candidate (lat, lon)
  matches (parseFloat of the returned strings is taken as given).
* Real time is modelled by a virtual clock: each executed delay(1000)
  advances the clock by 1000 ms; the network round-trip itself takes no
  modelled time, so proved spacings are the lower bounds the code enforces.
* bcrypt is modelled as an idealized hash: hashing prepends a fixed tag, and
  compare(p, h) holds exactly when h is the hash of p.
-/

namespace Halloween

/-- Lowercasing of one ASCII character, the fragment of toLowerCase the
address texts exercise. -/
def charLower (c : Char) : Char :=
  if 'A' ≤ c ∧ c ≤ 'Z' then Char.ofNat (c.toNat + 32) else c

/-- JS s.toLowerCase() on the ASCII fragment. -/
def jsLower (s : String) : String := ⟨s.data.map charLower⟩

/-- JS s.endsWith(t). -/
def jsEndsWith (s t : String) : Bool := t.data.isSuffixOf s.data

/-- JS s.length (code units; the texts here are ASCII, one unit per char). -/
def jsLength (s : String) : ℕ := s.data.length

/-- JS s.substring(0, n). -/
def jsTake (s : String) (n : ℕ) : String := ⟨s.data.take n⟩

/-- One character of JS whitespace, as trim sees it. -/
def isJsSpace (c : Char) : Bool := c = ' ' || c = '\t' || c = '\n' || c = '\r'

/-- JS s.trim(): strip whitespace from both ends. -/
def jsTrim (s : String) : String :=
  ⟨(((s.data.dropWhile isJsSpace).reverse.dropWhile isJsSpace).reverse)⟩

/-- Truthiness of a possibly-absent JS string field: present and nonempty. -/
def truthyStr : Option String → Bool
  | none => false
  | some s => !(s = "")

/-- Truthiness of a possibly-absent JS number field: present and nonzero. -/
def truthyNum : Option ℚ → Bool
  | none => false
  | some q => !(q = 0)

/-- Address record as stored in db.json and exchanged with the client:
text, optional lat/lon coordinates, optional special instructions. -/
structure Address where
  text : Option String
  lat : Option ℚ
  lon : Option ℚ
  instructions : Option String
deriving Repr, DecidableEq

/-- Default address used with List.getD in index-based statements. -/
def dfltAddr : Address := ⟨none, none, none, none⟩

/-- Condition of the geocode branch in POST /api/addresses:
address.text && (!address.lat || !address.lon), with JS truthiness. -/
def needsGeocode (a : Address) : Bool :=
  truthyStr a.text && (!truthyNum a.lat || !truthyNum a.lon)

/-- Outcome of one fetch to the geocoding service: a thrown error
(network failure / bad JSON), or a list of candidate matches. -/
inductive GeoResponse where
  | err
  | ok (results : List (ℚ × ℚ))
deriving Repr, DecidableEq

/-- One iteration body of the geocode loop for an address that needs
geocoding: on a nonempty result list, lat/lon are set from the first match;
on an empty list the address is untouched; a thrown error is caught and the
address is untouched.  The Bool records whether await delay(1000) executed:
it sits after the fetch inside the try block, so it runs unless the fetch
threw. -/
def geocodeStep (r : GeoResponse) (a : Address) : Address × Bool :=
  match r with
  | .err => (a, false)
  | .ok [] => (a, true)
  | .ok ((la, lo) :: _) => ({ a with lat := some la, lon := some lo }, true)

/-- Trace of one run of the geocode loop over a submitted address list. -/
structure GeoRun where
  out : List Address
  attempted : List Bool
  nextIdx : ℕ
  clock : ℕ
  calls : List (ℕ × Bool)
deriving Repr, DecidableEq

/-- The for-loop of POST /api/addresses over the submitted addresses.
Arguments: the response oracle, the remaining list, the index of the next
fetch call, and the virtual clock.  For each address satisfying
needsGeocode, one fetch is made (recorded in calls with the current clock
and whether the delay ran) consuming the next oracle response; other
addresses are skipped.  attempted records, per address, whether a fetch was
made for it; out is the (possibly mutated) address list. -/
def geocodeAddresses (responses : ℕ → GeoResponse) :
    List Address → ℕ → ℕ → GeoRun
  | [], k, t => ⟨[], [], k, t, []⟩
  | a :: rest, k, t =>
    if needsGeocode a then
      let step := geocodeStep (responses k) a
      let t2 := if step.2 then t + 1000 else t
      let r := geocodeAddresses responses rest (k + 1) t2
      ⟨step.1 :: r.out, true :: r.attempted, r.nextIdx, r.clock,
        (t, step.2) :: r.calls⟩
    else
      let r := geocodeAddresses responses rest k t
      ⟨a :: r.out, false :: r.attempted, r.nextIdx, r.clock, r.calls⟩

/-- The persistent lowdb document db.data. -/
structure Store where
  addresses : List Address
  rules : String
  adminPassword : String
deriving Repr, DecidableEq

/-- JSON envelope sent by the API handlers (HTTP status, success, message). -/
structure ApiResponse where
  status : ℕ
  success : Bool
  message : String
deriving Repr, DecidableEq

/-- Idealized bcrypt.hash: prepends the bcrypt tag to the password. -/
def bcryptHash (p : String) : String := "$2b$10$" ++ p

/-- Idealized bcrypt.compare(p, h): h is exactly the hash of p. -/
def bcryptCompare (p h : String) : Bool := h = bcryptHash p

/-- The isAuthenticated middleware on a path starting with /api/: pass
through when req.session.user is set, otherwise short-circuit with the 401
JSON error. -/
def isAuthenticatedApi (sessionUser : Bool) : Option ApiResponse :=
  if sessionUser then none
  else some ⟨401, false, "Unauthorized. Please sign in."⟩

/-- The isAuthenticated middleware on a non-API path: pass through when
req.session.user is set, otherwise redirect to the sign-in page. -/
def isAuthenticatedPage (sessionUser : Bool) : Option String :=
  if sessionUser then none
  else some "/signin.html"

/-- Body of POST /api/addresses: the addresses field is an array of
addresses, or any non-array value. -/
inductive BodyAddresses where
  | arr (addresses : List Address)
  | notArray
deriving Repr

/-- Handler of POST /api/addresses (gated by isAuthenticated): reject a
non-array body with 400; otherwise run the geocode loop over the submitted
list, assign the result to db.data.addresses, write, and answer 200. -/
def postAddresses (sessionUser : Bool) (store : Store) (body : BodyAddresses)
    (responses : ℕ → GeoResponse) : Store × ApiResponse :=
  match isAuthenticatedApi sessionUser with
  | some r => (store, r)
  | none =>
    match body with
    | .notArray => (store, ⟨400, false, "Invalid data format."⟩)
    | .arr addresses =>
      let run := geocodeAddresses responses addresses 0 0
      ({ store with addresses := run.out },
        ⟨200, true, "Addresses updated successfully."⟩)

/-- Handler of GET /api/addresses: the stored list verbatim, no auth. -/
def getAddresses (store : Store) : List Address := store.addresses

/-- Body of POST /api/rules: the rules field is a string or anything else. -/
inductive BodyRules where
  | str (rules : String)
  | notString
deriving Repr

/-- Handler of POST /api/rules (gated by isAuthenticated). -/
def postRules (sessionUser : Bool) (store : Store) (body : BodyRules) :
    Store × ApiResponse :=
  match isAuthenticatedApi sessionUser with
  | some r => (store, r)
  | none =>
    match body with
    | .str s =>
      ({ store with rules := s }, ⟨200, true, "Rules updated successfully."⟩)
    | .notString => (store, ⟨400, false, "Invalid data format."⟩)

/-- Handler of POST /api/change-password (gated by isAuthenticated; missing
fields are modelled as empty strings, which are falsy). -/
def postChangePassword (sessionUser : Bool) (store : Store)
    (currentPassword newPassword : String) : Store × ApiResponse :=
  match isAuthenticatedApi sessionUser with
  | some r => (store, r)
  | none =>
    if currentPassword = "" || newPassword = "" then
      (store, ⟨400, false, "Current and new passwords are required."⟩)
    else if jsLength newPassword < 8 then
      (store, ⟨400, false, "New password must be at least 8 characters long."⟩)
    else if !(bcryptCompare currentPassword store.adminPassword) then
      (store, ⟨401, false, "Incorrect current password."⟩)
    else
      ({ store with adminPassword := bcryptHash newPassword },
        ⟨200, true, "Password updated successfully."⟩)

/-- Result of a page route: send a file or redirect. -/
inductive PageResult where
  | file (path : String)
  | redirect (path : String)
deriving Repr, DecidableEq

/-- Handler of GET /admin.html (gated by isAuthenticated). -/
def getAdminHtml (sessionUser : Bool) : PageResult :=
  match isAuthenticatedPage sessionUser with
  | some target => .redirect target
  | none => .file "admin.html"

/-- Observable outcome of POST /signin: the session flag after the request,
whether the handler executed the assignment req.session.user = true, whether
bcrypt.compare was invoked, the HTTP status, and the redirect target. -/
structure SigninResult where
  sessionUser : Bool
  assigned : Bool
  compared : Bool
  status : ℕ
  redirectTo : Option String
deriving Repr, DecidableEq

/-- Handler of POST /signin: username is compared with the configured
ADMIN_USERNAME; bcrypt.compare against the stored hash runs only when the
username matched; on success the session flag is set and the response
redirects to /admin.html, otherwise a 401 page is sent and the session is
untouched. -/
def postSignin (envUsername : String) (store : Store) (sessionUser : Bool)
    (username password : String) : SigninResult :=
  let isUsernameCorrect : Bool := envUsername = username
  let isPasswordCorrect : Bool :=
    if isUsernameCorrect then bcryptCompare password store.adminPassword
    else false
  if isUsernameCorrect && isPasswordCorrect then
    ⟨true, true, isUsernameCorrect, 302, some "/admin.html"⟩
  else
    ⟨sessionUser, false, isUsernameCorrect, 401, none⟩

/-! Admin client (public/js/rules.js). -/

/-- locationSuffix of handleEdit in rules.js: note the leading space. -/
def editSuffix : String := " ardlethan nsw 2665"

/-- locationSuffix of the add-address-form handler: no leading space. -/
def addSuffix : String := "ardlethan nsw 2665"

/-- The while loop of handleEdit that strips the location suffix from the
address text, repeatedly, case-insensitively, trimming after each strip.
In the source the loop keeps streetPart and fullAddress equal at every
loop head, so it reduces to one variable; fuel bounds the iterations (each
one shortens the string by at least the suffix length, so s.length fuel is
never exhausted). -/
def stripSuffixLoop : ℕ → String → String
  | 0, s => s
  | fuel + 1, s =>
    if jsEndsWith (jsLower s) editSuffix then
      stripSuffixLoop fuel (jsTrim (jsTake s (jsLength s - jsLength editSuffix)))
    else s

/-- Street part shown in the edit box for an address text. -/
def editStreetPart (text : String) : String :=
  stripSuffixLoop (jsLength text) text

/-- The Save handler built by handleEdit: inputs are the raw values of the
street-part box and the instructions box.  The new text is the template
string of the street part, a literal space, and editSuffix (which itself
starts with a space).  Coordinates are deleted only when the rebuilt text
differs from the old text; instructions become undefined when empty. -/
def editSave (a : Address) (inputValue instructionsValue : String) : Address :=
  let oldAddressText := a.text.getD ""
  let newStreetPart := jsTrim inputValue
  let newInstructions := jsTrim instructionsValue
  let newAddressText := newStreetPart ++ " " ++ editSuffix
  let a2 := if !(newAddressText = oldAddressText)
    then { a with lat := none, lon := none } else a
  { a2 with
    text := some newAddressText
    instructions := if newInstructions = "" then none else some newInstructions }

/-- The add-address-form submit handler: trim the street input; when
nonempty, append the new address (street, space, addSuffix) with no
coordinates to the working list. -/
def addAddressSubmit (list : List Address) (newAddressValue newInstructionsValue : String) :
    List Address :=
  let streetAddress := jsTrim newAddressValue
  if !(streetAddress = "") then
    let instructions := jsTrim newInstructionsValue
    list ++ [⟨some (streetAddress ++ " " ++ addSuffix), none, none,
      if instructions = "" then none else some instructions⟩]
  else list

end Halloween

namespace Halloween

/-! General lemmas about the geocode loop. -/

/-- The geocode loop returns one output address per input address. -/
theorem geocode_out_length (responses : ℕ → GeoResponse) (l : List Address)
    (k t : ℕ) : (geocodeAddresses responses l k t).out.length = l.length := by
  induction l generalizing k t with
  | nil => rfl
  | cons a rest ih =>
    by_cases hn : needsGeocode a <;> simp [geocodeAddresses, hn, ih]

/-- A fetch is attempted exactly for the addresses satisfying needsGeocode. -/
theorem geocode_attempted (responses : ℕ → GeoResponse) (l : List Address)
    (k t : ℕ) :
    (geocodeAddresses responses l k t).attempted = l.map needsGeocode := by
  induction l generalizing k t with
  | nil => rfl
  | cons a rest ih =>
    by_cases hn : needsGeocode a <;> simp [geocodeAddresses, hn, ih]

/-- One fetch call is recorded per address satisfying needsGeocode. -/
theorem geocode_calls_length (responses : ℕ → GeoResponse) (l : List Address)
    (k t : ℕ) :
    (geocodeAddresses responses l k t).calls.length = l.countP needsGeocode := by
  induction l generalizing k t with
  | nil => rfl
  | cons a rest ih =>
    by_cases hn : needsGeocode a <;>
      simp [geocodeAddresses, hn, ih, List.countP_cons]

/-- Pointwise characterization of the loop output: an address that does not
satisfy needsGeocode is returned unchanged; one that does is transformed by
geocodeStep applied to the oracle response whose index counts the
geocode-needing addresses before it. -/
theorem geocode_out_getD (responses : ℕ → GeoResponse) (l : List Address)
    (k t i : ℕ) (h : i < l.length) :
    (geocodeAddresses responses l k t).out.getD i dfltAddr =
      (if needsGeocode (l.getD i dfltAddr) then
        (geocodeStep (responses (k + (l.take i).countP needsGeocode))
          (l.getD i dfltAddr)).1
       else l.getD i dfltAddr) := by
  induction l generalizing k t i with
  | nil => simp at h
  | cons a rest ih =>
    cases i with
    | zero =>
      cases hn : needsGeocode a <;> simp [geocodeAddresses, hn]
    | succ j =>
      have hj : j < rest.length := by simpa using h
      cases hn : needsGeocode a with
      | true =>
        have harith : k + ((rest.take j).countP needsGeocode + 1) =
            k + 1 + (rest.take j).countP needsGeocode := by omega
        simp only [geocodeAddresses, hn, if_true, List.getD_cons_succ,
          List.take_succ_cons, List.countP_cons, if_pos, harith]
        exact ih (k + 1) _ j hj
      | false =>
        simp only [geocodeAddresses, hn, Bool.false_eq_true, if_false,
          List.getD_cons_succ, List.take_succ_cons, List.countP_cons,
          Bool.false_eq_true, Nat.add_zero, if_neg, not_false_iff]
        simpa using ih k t j hj

/-- Exact timing of the recorded fetch calls: the first call happens at the
initial clock, and each next call happens exactly 1000 ms after the previous
one when that previous fetch did not throw (so its delay ran), and at the
same instant when it threw. -/
theorem geocode_calls_chain (responses : ℕ → GeoResponse) (l : List Address)
    (k t : ℕ) :
    List.Chain' (fun p q : ℕ × Bool => q.1 = p.1 + (if p.2 then 1000 else 0))
        (geocodeAddresses responses l k t).calls ∧
      (∀ p ∈ (geocodeAddresses responses l k t).calls.head?, p.1 = t) := by
  induction l generalizing k t with
  | nil => simp [geocodeAddresses]
  | cons a rest ih =>
    cases hn : needsGeocode a with
    | true =>
      have ih2 := ih (k + 1) (if (geocodeStep (responses k) a).2 then t + 1000 else t)
      constructor
      · simp only [geocodeAddresses, hn, if_true]
        rw [List.chain'_cons']
        refine ⟨?_, ih2.1⟩
        intro q hq
        have hq2 := ih2.2 q hq
        cases hstep : (geocodeStep (responses k) a).2 <;>
          simp [hstep] at hq2 ⊢ <;> omega
      · simp [geocodeAddresses, hn]
    | false => simpa [geocodeAddresses, hn] using ih k t

/-- When no submitted address needs geocoding, the loop returns the list
unchanged and records no fetch call. -/
theorem geocode_no_need (responses : ℕ → GeoResponse) (l : List Address)
    (k t : ℕ) (h : ∀ a ∈ l, needsGeocode a = false) :
    (geocodeAddresses responses l k t).out = l ∧
      (geocodeAddresses responses l k t).calls = [] := by
  induction l generalizing k t with
  | nil => exact ⟨rfl, rfl⟩
  | cons a rest ih =>
    have ha := h a (by simp)
    have ihr := ih k t (fun b hb => h b (by simp [hb]))
    simp [geocodeAddresses, ha, ihr.1, ihr.2]

/-- Addresses with present-iff-present coordinate pairs keep that pairing
through the geocode loop: the loop either sets both coordinates from a
match or touches neither. -/
theorem geocode_coord_pairing (responses : ℕ → GeoResponse) (l : List Address)
    (k t : ℕ) (h : ∀ a ∈ l, a.lat.isSome = a.lon.isSome) :
    ∀ b ∈ (geocodeAddresses responses l k t).out, b.lat.isSome = b.lon.isSome := by
  induction l generalizing k t with
  | nil => simp [geocodeAddresses]
  | cons a rest ih =>
    intro b hb
    have ha := h a (by simp)
    have hrest : ∀ x ∈ rest, x.lat.isSome = x.lon.isSome :=
      fun x hx => h x (by simp [hx])
    cases hn : needsGeocode a with
    | true =>
      simp only [geocodeAddresses, hn, if_true, List.mem_cons] at hb
      rcases hb with hb | hb
      · subst hb
        cases hr : responses k with
        | err => simpa [geocodeStep, hr] using ha
        | ok results =>
          cases results with
          | nil => simpa [geocodeStep, hr] using ha
          | cons p ps => simp [geocodeStep, hr]
      · exact ih (k + 1) _ hrest b hb
    | false =>
      simp only [geocodeAddresses, hn, Bool.false_eq_true, if_false,
        List.mem_cons] at hb
      rcases hb with hb | hb
      · subst hb; exact ha
      · exact ih k t hrest b hb

end Halloween

namespace Halloween

/-- Left cancellation for string concatenation, through the character data. -/
theorem string_append_left_cancel (s t u : String) (h : s ++ t = s ++ u) :
    t = u := by
  have hd := congrArg String.data h
  simp only [String.data_append] at hd
  exact String.ext (List.append_cancel_left hd)

/-- The idealized bcrypt hash is injective. -/
theorem bcryptHash_inj (p q : String) (h : bcryptHash p = bcryptHash q) :
    p = q :=
  string_append_left_cancel _ _ _ h

/-- C1: every mutating endpoint (POST /api/rules, POST /api/addresses,
POST /api/change-password) and GET /admin.html is behind isAuthenticated:
without a session flag, each API handler answers the 401 envelope and leaves
the stored document untouched, and the admin page redirects to the sign-in
page. -/
theorem C1_unauthenticated_mutations_rejected (store : Store)
    (body : BodyAddresses) (responses : ℕ → GeoResponse) (rbody : BodyRules)
    (currentPassword newPassword : String) :
    postAddresses false store body responses =
        (store, ⟨401, false, "Unauthorized. Please sign in."⟩) ∧
      postRules false store rbody =
        (store, ⟨401, false, "Unauthorized. Please sign in."⟩) ∧
      postChangePassword false store currentPassword newPassword =
        (store, ⟨401, false, "Unauthorized. Please sign in."⟩) ∧
      getAdminHtml false = PageResult.redirect "/signin.html" :=
  ⟨rfl, rfl, rfl, rfl⟩

/-- C6: an authenticated POST /api/addresses whose addresses field is not an
array gets a 400 validation error and leaves the whole document unchanged;
with an array, the stored list is replaced in one whole-document write by
the geocoded submission (same length, one output per input), while the
rules and password fields stay untouched. -/
theorem C6_validation_and_atomic_replacement (store : Store)
    (responses : ℕ → GeoResponse) (l : List Address) :
    postAddresses true store .notArray responses =
        (store, ⟨400, false, "Invalid data format."⟩) ∧
      postAddresses true store (.arr l) responses =
        ({ store with addresses := (geocodeAddresses responses l 0 0).out },
          ⟨200, true, "Addresses updated successfully."⟩) ∧
      (postAddresses true store (.arr l) responses).1.addresses.length = l.length ∧
      (postAddresses true store (.arr l) responses).1.rules = store.rules ∧
      (postAddresses true store (.arr l) responses).1.adminPassword =
        store.adminPassword :=
  ⟨rfl, rfl, geocode_out_length responses l 0 0, rfl, rfl⟩

/-- C10: POST /signin performs the assignment req.session.user = true exactly
when the submitted username equals the configured admin username and the
password verifies against the stored hash; any failed sign-in leaves the
session flag as it was and answers 401; bcrypt.compare runs only when the
username matched; success answers a redirect to /admin.html. -/
theorem C10_signin_session_flag (envUsername : String) (store : Store)
    (sessionUser : Bool) (username password : String) :
    ((postSignin envUsername store sessionUser username password).assigned =
        (decide (envUsername = username) &&
          bcryptCompare password store.adminPassword)) ∧
      ((postSignin envUsername store sessionUser username password).assigned = true →
        (postSignin envUsername store sessionUser username password).sessionUser = true ∧
        (postSignin envUsername store sessionUser username password).status = 302) ∧
      ((postSignin envUsername store sessionUser username password).assigned = false →
        (postSignin envUsername store sessionUser username password).sessionUser =
            sessionUser ∧
          (postSignin envUsername store sessionUser username password).status = 401) ∧
      ((postSignin envUsername store sessionUser username password).compared =
        decide (envUsername = username)) := by
  by_cases hu : envUsername = username <;>
    cases hp : bcryptCompare password store.adminPassword <;>
      simp [postSignin, hu, hp]

/-- C10 witness: a successful sign-in sets the flag and redirects, a sign-in
with a wrong password leaves an unset flag unset and answers 401. -/
theorem C10_signin_session_flag_witness :
    ((postSignin "admin" ⟨[], "", bcryptHash "pw"⟩ false "admin" "pw").sessionUser = true ∧
      (postSignin "admin" ⟨[], "", bcryptHash "pw"⟩ false "admin" "pw").status = 302) ∧
      ((postSignin "admin" ⟨[], "", bcryptHash "pw"⟩ false "admin" "bad").sessionUser = false ∧
        (postSignin "admin" ⟨[], "", bcryptHash "pw"⟩ false "admin" "bad").status = 401) :=
  ⟨(C10_signin_session_flag "admin" ⟨[], "", bcryptHash "pw"⟩ false "admin" "pw").2.1
      (by decide),
    (C10_signin_session_flag "admin" ⟨[], "", bcryptHash "pw"⟩ false "admin" "bad").2.2.1
      (by decide)⟩

/-- C7: POST /api/change-password answers 400 and keeps the document intact
when the new password has fewer than 8 characters; answers 401 and keeps the
document intact when the current password does not verify; and on success
stores exactly the hash of the new password, so the new password verifies
against the stored hash while the old one, when different, does not. -/
theorem C7_change_password (store : Store)
    (currentPassword newPassword : String) :
    (jsLength newPassword < 8 →
      (postChangePassword true store currentPassword newPassword).1 = store ∧
      (postChangePassword true store currentPassword newPassword).2.status = 400 ∧
      (postChangePassword true store currentPassword newPassword).2.success = false) ∧
    (¬ currentPassword = "" → 8 ≤ jsLength newPassword →
      bcryptCompare currentPassword store.adminPassword = false →
      postChangePassword true store currentPassword newPassword =
        (store, ⟨401, false, "Incorrect current password."⟩)) ∧
    (¬ currentPassword = "" → 8 ≤ jsLength newPassword →
      bcryptCompare currentPassword store.adminPassword = true →
      (postChangePassword true store currentPassword newPassword).1.adminPassword =
          bcryptHash newPassword ∧
        (postChangePassword true store currentPassword newPassword).2.success = true ∧
        bcryptCompare newPassword
          (postChangePassword true store currentPassword newPassword).1.adminPassword =
            true ∧
        (¬ currentPassword = newPassword →
          bcryptCompare currentPassword
            (postChangePassword true store currentPassword newPassword).1.adminPassword =
              false)) := by
  refine ⟨?_, ?_, ?_⟩
  · intro hlen
    by_cases hc : currentPassword = "" <;> by_cases hn : newPassword = "" <;>
      simp [postChangePassword, isAuthenticatedApi, hc, hn, hlen]
  · intro hc hlen hcmp
    have hn : ¬ newPassword = "" := by
      intro he; rw [he] at hlen; simp [jsLength] at hlen
    simp [postChangePassword, isAuthenticatedApi, hc, hn, Nat.not_lt.mpr hlen, hcmp]
  · intro hc hlen hcmp
    have hn : ¬ newPassword = "" := by
      intro he; rw [he] at hlen; simp [jsLength] at hlen
    have hres : (postChangePassword true store currentPassword newPassword).1.adminPassword =
        bcryptHash newPassword := by
      simp [postChangePassword, isAuthenticatedApi, hc, hn, Nat.not_lt.mpr hlen, hcmp]
    refine ⟨hres, ?_, ?_, ?_⟩
    · simp [postChangePassword, isAuthenticatedApi, hc, hn, Nat.not_lt.mpr hlen, hcmp]
    · rw [hres]; simp [bcryptCompare]
    · intro hne
      rw [hres]
      simp only [bcryptCompare, decide_eq_false_iff_not]
      intro heq
      exact hne (bcryptHash_inj _ _ heq).symm

/-- C7 witness: concrete runs of the three branches, with a successful
change after which the old password no longer verifies and the new one does. -/
theorem C7_change_password_witness :
    ((postChangePassword true ⟨[], "", bcryptHash "oldpass123"⟩ "oldpass123" "short").1 =
        ⟨[], "", bcryptHash "oldpass123"⟩) ∧
      (postChangePassword true ⟨[], "", bcryptHash "oldpass123"⟩ "wrongpass1" "newpass123" =
        (⟨[], "", bcryptHash "oldpass123"⟩, ⟨401, false, "Incorrect current password."⟩)) ∧
      ((postChangePassword true ⟨[], "", bcryptHash "oldpass123"⟩ "oldpass123"
          "newpass123").1.adminPassword = bcryptHash "newpass123") ∧
      (bcryptCompare "newpass123"
          (postChangePassword true ⟨[], "", bcryptHash "oldpass123"⟩ "oldpass123"
            "newpass123").1.adminPassword = true) ∧
      (bcryptCompare "oldpass123"
          (postChangePassword true ⟨[], "", bcryptHash "oldpass123"⟩ "oldpass123"
            "newpass123").1.adminPassword = false) :=
  ⟨((C7_change_password ⟨[], "", bcryptHash "oldpass123"⟩ "oldpass123" "short").1
      (by decide)).1,
    ((C7_change_password ⟨[], "", bcryptHash "oldpass123"⟩ "wrongpass1" "newpass123").2.1
      (by decide) (by decide) (by decide)),
    ((C7_change_password ⟨[], "", bcryptHash "oldpass123"⟩ "oldpass123" "newpass123").2.2
      (by decide) (by decide) (by decide)).1,
    ((C7_change_password ⟨[], "", bcryptHash "oldpass123"⟩ "oldpass123" "newpass123").2.2
      (by decide) (by decide) (by decide)).2.2.1,
    (((C7_change_password ⟨[], "", bcryptHash "oldpass123"⟩ "oldpass123" "newpass123").2.2
      (by decide) (by decide) (by decide)).2.2.2 (by decide))⟩

end Halloween

namespace Halloween

/-- getD of a mapped list at an index in range, given any defaults. -/
theorem getD_map_of_lt {α β : Type} (f : α → β) (l : List α) (i : ℕ)
    (d : α) (d2 : β) (h : i < l.length) :
    (l.map f).getD i d2 = f (l.getD i d) := by
  induction l generalizing i with
  | nil => simp at h
  | cons a rest ih =>
    cases i with
    | zero => simp
    | succ j => simpa using ih j (by simpa using h)

/-- C2 counterexample: the claim that an address with both lat and lon set
is neither altered nor geocoded fails when a coordinate equals 0.  The
submitted address has lat 0 and lon 5 (both set); the truthiness test
!address.lat treats lat 0 as missing, so the entry is geocoded and both
coordinates are overwritten by the match (1, 2). -/
theorem C2_zero_coordinate_counterexample :
    (postAddresses true ⟨[⟨some "a", some 0, some 5, none⟩], "r", "h"⟩
          (.arr [⟨some "a", some 0, some 5, none⟩])
          (fun _ => .ok [(1, 2)])).1.addresses =
        [⟨some "a", some 1, some 2, none⟩] ∧
      (geocodeAddresses (fun _ => .ok [(1, 2)])
          [⟨some "a", some 0, some 5, none⟩] 0 0).attempted = [true] := by
  decide

/-- C2 amended: an address whose lat and lon are both set and nonzero (both
JS-truthy) passes through POST /api/addresses unaltered and without any
fetch to the geocoder for that entry; a coordinate equal to 0 is instead
treated as missing by the code and triggers a re-geocode. -/
theorem C2_truthy_coordinates_untouched (responses : ℕ → GeoResponse)
    (l : List Address) (i : ℕ) (h : i < l.length)
    (hlat : truthyNum (l.getD i dfltAddr).lat = true)
    (hlon : truthyNum (l.getD i dfltAddr).lon = true) :
    (geocodeAddresses responses l 0 0).out.getD i dfltAddr = l.getD i dfltAddr ∧
      (geocodeAddresses responses l 0 0).attempted.getD i true = false := by
  have hng : needsGeocode (l.getD i dfltAddr) = false := by
    simp only [needsGeocode, hlat, hlon, Bool.not_true, Bool.or_self,
      Bool.and_false]
  constructor
  · rw [geocode_out_getD responses l 0 0 i h, hng]
    simp
  · rw [geocode_attempted, getD_map_of_lt needsGeocode l i dfltAddr true h, hng]

/-- C2 witness: an address with nonzero coordinates is returned verbatim and
never fetched, even against an error-throwing geocoder. -/
theorem C2_truthy_coordinates_untouched_witness :
    (geocodeAddresses (fun _ => .err) [⟨some "a", some 1, some 2, none⟩] 0 0).out.getD
        0 dfltAddr = (⟨some "a", some 1, some 2, none⟩ : Address) ∧
      (geocodeAddresses (fun _ => .err)
          [⟨some "a", some 1, some 2, none⟩] 0 0).attempted.getD 0 true = false :=
  C2_truthy_coordinates_untouched (fun _ => .err)
    [⟨some "a", some 1, some 2, none⟩] 0 (by decide) (by decide) (by decide)

/-- C3 counterexample: the pairing invariant does not hold for every input
list and response sequence.  A submitted address carrying lat 1 and no lon
needs geocoding; the fetch throws, the catch block keeps the address as
submitted, and the save still succeeds, persisting an address with lat but
no lon. -/
theorem C3_partial_coordinate_counterexample :
    (postAddresses true ⟨[], "r", "h"⟩ (.arr [⟨some "a", some 1, none, none⟩])
          (fun _ => .err)).2.success = true ∧
      ¬ (∀ b ∈ (postAddresses true ⟨[], "r", "h"⟩
            (.arr [⟨some "a", some 1, none, none⟩])
            (fun _ => .err)).1.addresses, b.lat.isSome = b.lon.isSome) := by
  decide

/-- C3 amended: when every submitted address already has lat present exactly
when lon is present, then after the (always successful) save every persisted
address still has lat present exactly when lon is present, for every
geocoder response sequence including errors and empty results: the geocode
loop sets both coordinates from a match or touches neither. -/
theorem C3_coordinate_pairing_preserved (store : Store)
    (responses : ℕ → GeoResponse) (l : List Address)
    (h : ∀ a ∈ l, a.lat.isSome = a.lon.isSome) :
    (postAddresses true store (.arr l) responses).2.success = true ∧
      ∀ b ∈ (postAddresses true store (.arr l) responses).1.addresses,
        b.lat.isSome = b.lon.isSome := by
  refine ⟨rfl, ?_⟩
  intro b hb
  have heq : (postAddresses true store (.arr l) responses).1.addresses =
      (geocodeAddresses responses l 0 0).out := rfl
  rw [heq] at hb
  exact geocode_coord_pairing responses l 0 0 h b hb

/-- C3 witness: a list with one fully-coordinated and one coordinate-less
address keeps the pairing through a failing geocode. -/
theorem C3_coordinate_pairing_preserved_witness :
    (postAddresses true ⟨[], "r", "h"⟩
          (.arr [⟨some "a", some 1, some 2, none⟩, ⟨some "b", none, none, none⟩])
          (fun _ => .err)).2.success = true ∧
      ∀ b ∈ (postAddresses true ⟨[], "r", "h"⟩
            (.arr [⟨some "a", some 1, some 2, none⟩, ⟨some "b", none, none, none⟩])
            (fun _ => .err)).1.addresses, b.lat.isSome = b.lon.isSome :=
  C3_coordinate_pairing_preserved ⟨[], "r", "h"⟩ (fun _ => .err)
    [⟨some "a", some 1, some 2, none⟩, ⟨some "b", none, none, none⟩] (by decide)

/-- A failed geocode outcome: a thrown fetch or an empty result list. -/
def geoFailed : GeoResponse → Bool
  | .err => true
  | .ok [] => true
  | .ok (_ :: _) => false

/-- C4: a geocoding failure (thrown fetch or empty result) for one address
does not abort the batch: the save still succeeds with the whole geocoded
list, the failed entry is persisted exactly as submitted (in particular
coordinate-less when submitted coordinate-less), and every address, the
later ones included, still gets a fetch exactly when it needs geocoding. -/
theorem C4_geocode_failure_not_aborting (store : Store)
    (responses : ℕ → GeoResponse) (l : List Address) (i : ℕ)
    (h : i < l.length) (hneed : needsGeocode (l.getD i dfltAddr) = true)
    (hfail : geoFailed (responses ((l.take i).countP needsGeocode)) = true) :
    (postAddresses true store (.arr l) responses).2 =
        ⟨200, true, "Addresses updated successfully."⟩ ∧
      (postAddresses true store (.arr l) responses).1.addresses =
        (geocodeAddresses responses l 0 0).out ∧
      (geocodeAddresses responses l 0 0).out.getD i dfltAddr = l.getD i dfltAddr ∧
      ((l.getD i dfltAddr).lat = none → (l.getD i dfltAddr).lon = none →
        ((geocodeAddresses responses l 0 0).out.getD i dfltAddr).lat = none ∧
          ((geocodeAddresses responses l 0 0).out.getD i dfltAddr).lon = none) ∧
      (geocodeAddresses responses l 0 0).attempted = l.map needsGeocode := by
  have hout : (geocodeAddresses responses l 0 0).out.getD i dfltAddr =
      l.getD i dfltAddr := by
    rw [geocode_out_getD responses l 0 0 i h, hneed]
    simp only [if_true, Nat.zero_add]
    cases hr : responses ((l.take i).countP needsGeocode) with
    | err => simp [geocodeStep]
    | ok results =>
      cases results with
      | nil => simp [geocodeStep]
      | cons p ps => rw [hr] at hfail; simp [geoFailed] at hfail
  refine ⟨rfl, rfl, hout, ?_, geocode_attempted responses l 0 0⟩
  intro hla hlo
  rw [hout]
  exact ⟨hla, hlo⟩

/-- C4 witness: with the first fetch throwing and the second matching, the
first address stays coordinate-less, the second is geocoded, and the save
succeeds. -/
theorem C4_geocode_failure_not_aborting_witness :
    (postAddresses true ⟨[], "r", "h"⟩
          (.arr [⟨some "a", none, none, none⟩, ⟨some "b", none, none, none⟩])
          (fun k => if k = 0 then .err else .ok [(3, 4)])).2 =
        ⟨200, true, "Addresses updated successfully."⟩ ∧
      (postAddresses true ⟨[], "r", "h"⟩
          (.arr [⟨some "a", none, none, none⟩, ⟨some "b", none, none, none⟩])
          (fun k => if k = 0 then .err else .ok [(3, 4)])).1.addresses =
        (geocodeAddresses (fun k => if k = 0 then .err else .ok [(3, 4)])
          [⟨some "a", none, none, none⟩, ⟨some "b", none, none, none⟩] 0 0).out ∧
      (geocodeAddresses (fun k => if k = 0 then .err else .ok [(3, 4)])
          [⟨some "a", none, none, none⟩, ⟨some "b", none, none, none⟩] 0 0).out.getD
        0 dfltAddr = (⟨some "a", none, none, none⟩ : Address) ∧
      ((⟨some "a", none, none, none⟩ : Address).lat = none →
        (⟨some "a", none, none, none⟩ : Address).lon = none →
        ((geocodeAddresses (fun k => if k = 0 then .err else .ok [(3, 4)])
            [⟨some "a", none, none, none⟩, ⟨some "b", none, none, none⟩] 0 0).out.getD
          0 dfltAddr).lat = none ∧
        ((geocodeAddresses (fun k => if k = 0 then .err else .ok [(3, 4)])
            [⟨some "a", none, none, none⟩, ⟨some "b", none, none, none⟩] 0 0).out.getD
          0 dfltAddr).lon = none) ∧
      (geocodeAddresses (fun k => if k = 0 then .err else .ok [(3, 4)])
          [⟨some "a", none, none, none⟩, ⟨some "b", none, none, none⟩] 0 0).attempted =
        [⟨some "a", none, none, none⟩, ⟨some "b", none, none, none⟩].map needsGeocode :=
  C4_geocode_failure_not_aborting ⟨[], "r", "h"⟩
    (fun k => if k = 0 then .err else .ok [(3, 4)])
    [⟨some "a", none, none, none⟩, ⟨some "b", none, none, none⟩] 0
    (by decide) (by decide) (by decide)

end Halloween

namespace Halloween

/-- C8 counterexample: the round trip is not a no-op for every stored
document in which every address with non-empty text has both coordinates.
The single stored address has text "a" and both coordinates present, lat 0
and lon 1, yet lat 0 is falsy for the geocode test, so resubmitting the
stored list re-geocodes the entry and overwrites both coordinates with the
match (2, 3), changing the document. -/
theorem C8_roundtrip_counterexample :
    (postAddresses true ⟨[⟨some "a", some 0, some 1, none⟩], "r", "h"⟩
          (.arr (getAddresses ⟨[⟨some "a", some 0, some 1, none⟩], "r", "h"⟩))
          (fun _ => .ok [(2, 3)])).1 ≠
      (⟨[⟨some "a", some 0, some 1, none⟩], "r", "h"⟩ : Store) := by
  decide

/-- C8 amended: resubmitting the stored list is a no-op on the stored
document whenever no stored address satisfies the needsGeocode test, that
is, every address with nonempty text has both coordinates present and
nonzero: the geocode loop then touches nothing and no fetch happens, and
the whole-document write stores the identical document. -/
theorem C8_roundtrip_noop (store : Store) (responses : ℕ → GeoResponse)
    (h : ∀ a ∈ store.addresses, needsGeocode a = false) :
    postAddresses true store (.arr (getAddresses store)) responses =
        (store, ⟨200, true, "Addresses updated successfully."⟩) ∧
      (geocodeAddresses responses (getAddresses store) 0 0).calls = [] := by
  have hrun := geocode_no_need responses store.addresses 0 0 h
  constructor
  · show ({ store with addresses := (geocodeAddresses responses store.addresses 0 0).out },
        (⟨200, true, "Addresses updated successfully."⟩ : ApiResponse)) = _
    rw [hrun.1]
  · exact hrun.2

/-- C8 witness: a document whose addresses all have nonzero coordinates or
no text round-trips unchanged with no fetch, even against a geocoder that
would answer a match. -/
theorem C8_roundtrip_noop_witness :
    postAddresses true
          ⟨[⟨some "a", some 1, some 2, none⟩, ⟨none, none, none, none⟩], "r", "h"⟩
          (.arr (getAddresses
            ⟨[⟨some "a", some 1, some 2, none⟩, ⟨none, none, none, none⟩], "r", "h"⟩))
          (fun _ => .ok [(9, 9)]) =
        (⟨[⟨some "a", some 1, some 2, none⟩, ⟨none, none, none, none⟩], "r", "h"⟩,
          ⟨200, true, "Addresses updated successfully."⟩) ∧
      (geocodeAddresses (fun _ => .ok [(9, 9)])
          (getAddresses
            ⟨[⟨some "a", some 1, some 2, none⟩, ⟨none, none, none, none⟩], "r", "h"⟩)
          0 0).calls = [] :=
  C8_roundtrip_noop
    ⟨[⟨some "a", some 1, some 2, none⟩, ⟨none, none, none, none⟩], "r", "h"⟩
    (fun _ => .ok [(9, 9)]) (by decide)

/-- C9 counterexample: at this input the claim fails twice over.  The first
submitted address has text "a" and both coordinates present (lat 0, lon 1),
so the claim predicts no attempt for it and one attempt for the second,
coordinate-less address, that is, an attempt pattern [false, true]; the code
attempts both because lat 0 is falsy.  And with the first fetch throwing,
the catch skips the delay, so the two recorded calls happen at the same
instant, not at least 1000 ms apart. -/
theorem C9_spacing_counterexample :
    (geocodeAddresses (fun _ => .err)
          [⟨some "a", some 0, some 1, none⟩, ⟨some "b", none, none, none⟩]
          0 0).attempted ≠ [false, true] ∧
      ¬ List.Chain' (fun p q : ℕ × Bool => p.1 + 1000 ≤ q.1)
        (geocodeAddresses (fun _ => .err)
          [⟨some "a", some 0, some 1, none⟩, ⟨some "b", none, none, none⟩]
          0 0).calls := by
  constructor
  · decide
  · intro hch
    have hcalls : (geocodeAddresses (fun _ => .err)
        [⟨some "a", some 0, some 1, none⟩, ⟨some "b", none, none, none⟩]
        0 0).calls = [(0, false), (0, false)] := by decide
    rw [hcalls] at hch
    exact absurd (List.chain'_cons.mp hch).1 (by decide)

/-- C9 amended: per save batch, exactly one fetch is attempted for each
address passing the needsGeocode test (text truthy and a coordinate absent
or zero) and none for the others; and consecutive fetch calls are spaced by
at least the 1000 ms delay whenever the earlier fetch did not throw: a
thrown fetch jumps to the catch block past the delay, so the following call
can start immediately. -/
theorem C9_attempts_and_spacing (responses : ℕ → GeoResponse)
    (l : List Address) :
    (geocodeAddresses responses l 0 0).attempted = l.map needsGeocode ∧
      (geocodeAddresses responses l 0 0).calls.length = l.countP needsGeocode ∧
      List.Chain' (fun p q : ℕ × Bool => p.2 = true → p.1 + 1000 ≤ q.1)
        (geocodeAddresses responses l 0 0).calls := by
  refine ⟨geocode_attempted responses l 0 0, geocode_calls_length responses l 0 0, ?_⟩
  have hch := (geocode_calls_chain responses l 0 0).1
  refine hch.imp ?_
  intro a b hab hp
  rw [hab, hp]
  simp

/-- C5: evaluation of the admin Edit transition at the failing input.  The
add form creates the canonical text with a single space before the suffix;
opening Edit strips the suffix (also when duplicated) down to the street
part; but saving the very same street part rebuilds the text as the
template of the street part, a literal space, and the suffix that itself
starts with a space, so the rebuilt text carries two spaces, differs from
the stored text, and the handler deletes both coordinates. -/
theorem C5_edit_resave_clears_coordinates :
    addAddressSubmit [] "12 Main St" "" =
        [⟨some "12 Main St ardlethan nsw 2665", none, none, none⟩] ∧
      editStreetPart "12 Main St ardlethan nsw 2665" = "12 Main St" ∧
      editStreetPart "12 Main St ardlethan nsw 2665 ardlethan nsw 2665" =
        "12 Main St" ∧
      editSave ⟨some "12 Main St ardlethan nsw 2665", some 1, some 2, none⟩
          "12 Main St" "" =
        ⟨some "12 Main St  ardlethan nsw 2665", none, none, none⟩ := by
  decide

end Halloween
